import Mathlib

/-!
Verification of the Algoplay icon scripts (`scripts/fix_icon.py` and
`scripts/fix_icon_aggressive.py`).

Both scripts load an RGBA image from a path, resize its content by a ratio,
paste the resized content centered onto a fresh fully-transparent canvas of
the original size, and save the canvas back to the same path, catching every
exception and printing messages.

The embedding below models:
  * pixels as exact `RGBA` quadruples of naturals,
  * images as a size plus a pixel function,
  * the filesystem as a map from paths to files, where a file either decodes
    to an image or raises a decode error; the other fallible step is the
    resize call, whose Pillow implementation raises
    `ValueError("height and width must be > 0")` at a zero target dimension,
  * the image library's resampling filter and alpha-masked blending as a
    black box (`PILLib`), exactly as the specification treats the external
    collaborator: the scripts' own logic never inspects resampled pixel
    values, only places them,
  * Python `int()` truncation and `//` floor division exactly,
  * the ratio arguments as exact rationals,
  * each `print` call as a constructor of an inductive `Msg` type, emitted in
    program order.
-/

attribute [local semireducible] Rat.mul Rat.sub Rat.add

/-- A pixel: red, green, blue, alpha channels. -/
structure RGBA where
  r : Nat
  g : Nat
  b : Nat
  a : Nat
deriving DecidableEq, Repr

/-- The fully transparent pixel (0,0,0,0). -/
def RGBA.clear : RGBA := ⟨0, 0, 0, 0⟩

/-- A decoded RGBA bitmap: dimensions plus a pixel function. -/
structure Image where
  width : Nat
  height : Nat
  pixel : Nat → Nat → RGBA

/-- Python `int()` on an exact rational: truncation toward zero. -/
def pyInt (q : ℚ) : Int := if 0 ≤ q then q.floor else -((-q).floor)

/-- `int(d * ratio)` from the scripts: the scaled dimension, as a natural
(`new_w = int(width * target_size_ratio)` and the three analogous lines). -/
def scaledDim (d : Nat) (ratio : ℚ) : Nat := (pyInt ((d : ℚ) * ratio)).toNat

/-- `(full - new) // 2` from the scripts: Python floor division on ints
(`x = (width - new_w) // 2` and the analogous `y`). -/
def centerOffset (full new : Nat) : Int := ((full : Int) - (new : Int)).fdiv 2

/-- Black-box model of the image library primitives the scripts call,
matching the specification's treatment of the decoding/resampling library as
an external collaborator.  `resample img w h x y` is pixel `(x, y)` of `img`
resized to `(w, h)` (LANCZOS in the scripts); `blend src dst a` is the
alpha-masked compositing of a source pixel over a destination pixel under
mask alpha `a`. -/
structure PILLib where
  resample : Image → Nat → Nat → Nat → Nat → RGBA
  blend : RGBA → RGBA → Nat → RGBA

/-- The bitmap produced by a successful resize: exactly the requested size,
with pixels from the library's resampling filter. -/
def Image.resizedData (lib : PILLib) (img : Image) (w h : Nat) : Image :=
  ⟨w, h, fun x y => lib.resample img w h x y⟩

/-- `img.resize((w, h), Image.Resampling.LANCZOS)`: Pillow's resize guard
raises `ValueError("height and width must be > 0")` when a target dimension
is not positive; otherwise it yields an image of exactly the requested size
whose pixels come from the resampling filter. -/
def Image.resize (lib : PILLib) (img : Image) (w h : Nat) : Except String Image :=
  if w = 0 ∨ h = 0 then Except.error "height and width must be > 0"
  else Except.ok (Image.resizedData lib img w h)

/-- `Image.new("RGBA", (w, h), (0, 0, 0, 0))`: a fully transparent canvas. -/
def Image.newCanvas (w h : Nat) : Image :=
  ⟨w, h, fun _ _ => RGBA.clear⟩

/-- `dst.paste(src, (x, y), src)`: alpha-masked paste of `src` onto `dst`
with its top-left corner at `(x, y)`, using `src`'s own alpha band as the
mask.  Pixels outside the pasted rectangle keep the destination value. -/
def Image.pasteMasked (lib : PILLib) (dst src : Image) (x y : Int) : Image :=
  ⟨dst.width, dst.height, fun px py =>
    if x ≤ (px : Int) ∧ (px : Int) < x + src.width ∧
       y ≤ (py : Int) ∧ (py : Int) < y + src.height then
      lib.blend (src.pixel ((px : Int) - x).toNat ((py : Int) - y).toNat)
        (dst.pixel px py)
        (src.pixel ((px : Int) - x).toNat ((py : Int) - y).toNat).a
    else dst.pixel px py⟩

/-- A file on disk, as the scripts see it: `Image.open(path).convert("RGBA")`
either yields a decoded image or raises with some message. -/
def PyFile := Except String Image

/-- The filesystem: a map from paths to files (`none` = path absent). -/
def FS := String → Option PyFile

/-- The lines the scripts print, one constructor per `print` statement. -/
inductive Msg where
  | fileNotFound (path : String)
  | processing (path : String)
  | processingWithScale (path : String) (scale : ℚ)
  | success (pct : Int)
  | error (e : String)
deriving DecidableEq, Repr

/-- The image stored at a filesystem entry, when that entry is a decodable
file; a 0×0 image otherwise.  Used to phrase properties of saved output. -/
def fileImage : Option PyFile → Image
  | some (Except.ok img) => img
  | _ => ⟨0, 0, fun _ _ => RGBA.clear⟩

/-- `add_padding(image_path, padding_ratio)` from `scripts/fix_icon.py`:
existence check, decode, `target_size_ratio = 1.0 - padding_ratio`, resize,
transparent canvas, centered alpha-masked paste, save back to the same path;
every exception is caught and reported, so the result is always a normal
`(filesystem, printed messages)` pair.  In this embedding the fallible steps
are decoding (`Except.error` files) and the resize guard. -/
def add_padding (lib : PILLib) (fs : FS) (image_path : String)
    (padding_ratio : ℚ) : FS × List Msg :=
  match fs image_path with
  | none => (fs, [Msg.fileNotFound image_path])
  | some (Except.error e) => (fs, [Msg.processing image_path, Msg.error e])
  | some (Except.ok img) =>
    let width := img.width
    let height := img.height
    let target_size_ratio : ℚ := 1 - padding_ratio
    let new_w := scaledDim width target_size_ratio
    let new_h := scaledDim height target_size_ratio
    match Image.resize lib img new_w new_h with
    | Except.error e => (fs, [Msg.processing image_path, Msg.error e])
    | Except.ok img_resized =>
      let new_img := Image.newCanvas width height
      let x := centerOffset width new_w
      let y := centerOffset height new_h
      let pasted := Image.pasteMasked lib new_img img_resized x y
      (fun p => if p = image_path then some (Except.ok pasted) else fs p,
       [Msg.processing image_path,
        Msg.success (pyInt (target_size_ratio * 100))])

/-- `shrink_content(image_path, scale_factor)` from
`scripts/fix_icon_aggressive.py`: identical pipeline except that the scale
factor is used directly and the progress message also names it. -/
def shrink_content (lib : PILLib) (fs : FS) (image_path : String)
    (scale_factor : ℚ) : FS × List Msg :=
  match fs image_path with
  | none => (fs, [Msg.fileNotFound image_path])
  | some (Except.error e) =>
    (fs, [Msg.processingWithScale image_path scale_factor, Msg.error e])
  | some (Except.ok img) =>
    let width := img.width
    let height := img.height
    let new_w := scaledDim width scale_factor
    let new_h := scaledDim height scale_factor
    match Image.resize lib img new_w new_h with
    | Except.error e =>
      (fs, [Msg.processingWithScale image_path scale_factor, Msg.error e])
    | Except.ok img_resized =>
      let new_img := Image.newCanvas width height
      let x := centerOffset width new_w
      let y := centerOffset height new_h
      let pasted := Image.pasteMasked lib new_img img_resized x y
      (fun p => if p = image_path then some (Except.ok pasted) else fs p,
       [Msg.processingWithScale image_path scale_factor,
        Msg.success (pyInt (scale_factor * 100))])

/-- A point `(px, py)` lies outside the rectangle of size `w×h` whose
top-left corner is at `(x, y)`. -/
def outsideRect (x y : Int) (w h : Nat) (px py : Nat) : Prop :=
  ¬ (x ≤ (px : Int) ∧ (px : Int) < x + w ∧
     y ≤ (py : Int) ∧ (py : Int) < y + h)

instance (x y : Int) (w h px py : Nat) :
    Decidable (outsideRect x y w h px py) := by
  unfold outsideRect; infer_instance

/-- A concrete instantiation of the library black box, used for witnesses
and counterexamples: nearest-neighbour resampling and a mask-threshold
blend (keep the destination where the mask alpha is 0, else take the
source). -/
def nearestLib : PILLib where
  resample img w h x y := img.pixel (x * img.width / w) (y * img.height / h)
  blend src dst a := if a = 0 then dst else src

/-! ### Concrete fixtures used by witnesses and counterexamples -/

/-- A fully opaque white image of the given size. -/
def imgOpaque (w h : Nat) : Image := ⟨w, h, fun _ _ => ⟨255, 255, 255, 255⟩⟩

/-- A filesystem holding exactly one decodable image at `path`. -/
def fsWith (path : String) (img : Image) : FS :=
  fun p => if p = path then some (Except.ok img) else none

/-- The empty filesystem. -/
def fsEmpty : FS := fun _ => none

/-- A filesystem holding one corrupt (undecodable) file at `path`. -/
def fsCorrupt (path : String) (e : String) : FS :=
  fun p => if p = path then some (Except.error e) else none

/-! ### Arithmetic helper lemmas -/

lemma rat_floor_eq_floor (q : ℚ) : q.floor = ⌊q⌋ := by
  rw [Rat.floor_def', Rat.floor_def]

lemma pyInt_of_nonneg {q : ℚ} (h : 0 ≤ q) : pyInt q = ⌊q⌋ := by
  unfold pyInt
  rw [if_pos h, rat_floor_eq_floor]

lemma scaledDim_eq_floor (d : Nat) {r : ℚ} (h : 0 ≤ r) :
    scaledDim d r = (⌊(d : ℚ) * r⌋).toNat := by
  unfold scaledDim
  rw [pyInt_of_nonneg (mul_nonneg (by positivity) h)]

lemma scaledDim_le_self (d : Nat) {r : ℚ} (h0 : 0 ≤ r) (h1 : r ≤ 1) :
    scaledDim d r ≤ d := by
  rw [scaledDim_eq_floor d h0]
  have h : ⌊(d : ℚ) * r⌋ ≤ (d : Int) := by
    calc ⌊(d : ℚ) * r⌋ ≤ ⌊(d : ℚ)⌋ :=
          Int.floor_mono (mul_le_of_le_one_right (by positivity) h1)
    _ = (d : Int) := Int.floor_natCast d
  exact Int.toNat_le.mpr h

lemma centerOffset_eq_floor (full new : Nat) :
    centerOffset full new = ⌊((full : ℚ) - (new : ℚ)) / 2⌋ := by
  have h : ((full : ℚ) - (new : ℚ)) / 2
      = ((((full : Int) - (new : Int)) : Int) : ℚ) / ((2 : ℕ) : ℚ) := by
    push_cast
    ring
  rw [h, Rat.floor_intCast_div_natCast]
  unfold centerOffset
  rw [Int.fdiv_eq_ediv _ (by norm_num)]
  norm_num

lemma centerOffset_bounds (d : Nat) {r : ℚ} (h0 : 0 ≤ r) (h1 : r ≤ 1) :
    0 ≤ centerOffset d (scaledDim d r)
    ∧ centerOffset d (scaledDim d r) + scaledDim d r ≤ (d : Int) := by
  have hle : scaledDim d r ≤ d := scaledDim_le_self d h0 h1
  unfold centerOffset
  rw [Int.fdiv_eq_ediv _ (by norm_num)]
  refine ⟨Int.ediv_nonneg (by omega) (by norm_num), ?_⟩
  have h2 : ((d : Int) - (scaledDim d r : Int)) / 2
      ≤ (d : Int) - (scaledDim d r : Int) := Int.ediv_le_self _ (by omega)
  omega

/-! ### Claims -/

/-- C1: for every valid RGBA image of size W×H and ratio `r ∈ (0,1]`, both
`add_padding` with `padding_ratio = 1 - r` and `shrink_content` with
`scale_factor = r` save back an image whose size is exactly W×H. -/
theorem c1_output_size_preserved (lib : PILLib) (fs : FS) (path : String)
    (r : ℚ) (img : Image) (hfs : fs path = some (Except.ok img))
    (hr0 : 0 < r) (hr1 : r ≤ 1) :
    ((add_padding lib fs path (1 - r)).1 path
        = some (Except.ok (fileImage ((add_padding lib fs path (1 - r)).1 path)))
      ∧ (fileImage ((add_padding lib fs path (1 - r)).1 path)).width = img.width
      ∧ (fileImage ((add_padding lib fs path (1 - r)).1 path)).height = img.height)
    ∧ ((shrink_content lib fs path r).1 path
        = some (Except.ok (fileImage ((shrink_content lib fs path r).1 path)))
      ∧ (fileImage ((shrink_content lib fs path r).1 path)).width = img.width
      ∧ (fileImage ((shrink_content lib fs path r).1 path)).height = img.height) := by
  have hr : 1 - (1 - r) = r := by ring
  constructor
  · rcases h2 : Image.resize lib img (scaledDim img.width r)
        (scaledDim img.height r) with e | imgr <;>
      simp [add_padding, hfs, hr, h2, fileImage, Image.pasteMasked,
        Image.newCanvas]
  · rcases h2 : Image.resize lib img (scaledDim img.width r)
        (scaledDim img.height r) with e | imgr <;>
      simp [shrink_content, hfs, h2, fileImage, Image.pasteMasked,
        Image.newCanvas]

/-- Witness for C1 at a concrete 4×4 image and `r = 1/2`. -/
theorem c1_witness :
    fsWith "icon" (imgOpaque 4 4) "icon" = some (Except.ok (imgOpaque 4 4))
    ∧ (0 : ℚ) < 1/2 ∧ (1 : ℚ)/2 ≤ 1
    ∧ (((add_padding nearestLib (fsWith "icon" (imgOpaque 4 4)) "icon" (1 - 1/2)).1 "icon"
        = some (Except.ok (fileImage ((add_padding nearestLib (fsWith "icon" (imgOpaque 4 4)) "icon" (1 - 1/2)).1 "icon")))
      ∧ (fileImage ((add_padding nearestLib (fsWith "icon" (imgOpaque 4 4)) "icon" (1 - 1/2)).1 "icon")).width = (imgOpaque 4 4).width
      ∧ (fileImage ((add_padding nearestLib (fsWith "icon" (imgOpaque 4 4)) "icon" (1 - 1/2)).1 "icon")).height = (imgOpaque 4 4).height)
    ∧ ((shrink_content nearestLib (fsWith "icon" (imgOpaque 4 4)) "icon" (1/2)).1 "icon"
        = some (Except.ok (fileImage ((shrink_content nearestLib (fsWith "icon" (imgOpaque 4 4)) "icon" (1/2)).1 "icon")))
      ∧ (fileImage ((shrink_content nearestLib (fsWith "icon" (imgOpaque 4 4)) "icon" (1/2)).1 "icon")).width = (imgOpaque 4 4).width
      ∧ (fileImage ((shrink_content nearestLib (fsWith "icon" (imgOpaque 4 4)) "icon" (1/2)).1 "icon")).height = (imgOpaque 4 4).height)) :=
  ⟨rfl, by norm_num, by norm_num,
   c1_output_size_preserved nearestLib (fsWith "icon" (imgOpaque 4 4)) "icon"
     (1/2) (imgOpaque 4 4) rfl (by norm_num) (by norm_num)⟩

/-- C2: for every dimension pair and ratio `r ∈ (0,1]`, the scaled content
dimensions computed by the transforms equal `(⌊W*r⌋, ⌊H*r⌋)` and the paste
offsets equal the floor of half the per-axis difference. -/
theorem c2_dims_and_offset (W H : Nat) (r : ℚ) (h0 : 0 < r) (h1 : r ≤ 1) :
    scaledDim W r = (⌊(W : ℚ) * r⌋).toNat
    ∧ scaledDim H r = (⌊(H : ℚ) * r⌋).toNat
    ∧ centerOffset W (scaledDim W r) = ⌊((W : ℚ) - (scaledDim W r : ℚ)) / 2⌋
    ∧ centerOffset H (scaledDim H r) = ⌊((H : ℚ) - (scaledDim H r : ℚ)) / 2⌋ :=
  ⟨scaledDim_eq_floor W h0.le, scaledDim_eq_floor H h0.le,
   centerOffset_eq_floor _ _, centerOffset_eq_floor _ _⟩

/-- Witness for C2 at `W = H = 1024`, `r = 13/20` (the effective 0.65). -/
theorem c2_witness :
    (0 : ℚ) < 13/20 ∧ (13 : ℚ)/20 ≤ 1
    ∧ (scaledDim 1024 (13/20) = (⌊(1024 : ℚ) * (13/20)⌋).toNat
      ∧ scaledDim 1024 (13/20) = (⌊(1024 : ℚ) * (13/20)⌋).toNat
      ∧ centerOffset 1024 (scaledDim 1024 (13/20))
          = ⌊((1024 : ℚ) - (scaledDim 1024 (13/20) : ℚ)) / 2⌋
      ∧ centerOffset 1024 (scaledDim 1024 (13/20))
          = ⌊((1024 : ℚ) - (scaledDim 1024 (13/20) : ℚ)) / 2⌋) :=
  ⟨by norm_num, by norm_num,
   c2_dims_and_offset 1024 1024 (13/20) (by norm_num) (by norm_num)⟩

/-- C4: for W,H ≥ 1 and `r ∈ (0,1]`, the centered paste offsets are
nonnegative and offset plus scaled dimension stays within the canvas on
each axis. -/
theorem c4_content_in_bounds (W H : Nat) (r : ℚ) (hW : 1 ≤ W) (hH : 1 ≤ H)
    (h0 : 0 < r) (h1 : r ≤ 1) :
    0 ≤ centerOffset W (scaledDim W r)
    ∧ centerOffset W (scaledDim W r) + scaledDim W r ≤ (W : Int)
    ∧ 0 ≤ centerOffset H (scaledDim H r)
    ∧ centerOffset H (scaledDim H r) + scaledDim H r ≤ (H : Int) :=
  ⟨(centerOffset_bounds W h0.le h1).1, (centerOffset_bounds W h0.le h1).2,
   (centerOffset_bounds H h0.le h1).1, (centerOffset_bounds H h0.le h1).2⟩

/-- Witness for C4 at `W = H = 1024`, `r = 13/20`. -/
theorem c4_witness :
    1 ≤ 1024 ∧ (0 : ℚ) < 13/20 ∧ (13 : ℚ)/20 ≤ 1
    ∧ (0 ≤ centerOffset 1024 (scaledDim 1024 (13/20))
      ∧ centerOffset 1024 (scaledDim 1024 (13/20)) + scaledDim 1024 (13/20) ≤ (1024 : Int)
      ∧ 0 ≤ centerOffset 1024 (scaledDim 1024 (13/20))
      ∧ centerOffset 1024 (scaledDim 1024 (13/20)) + scaledDim 1024 (13/20) ≤ (1024 : Int)) :=
  ⟨by norm_num, by norm_num, by norm_num,
   c4_content_in_bounds 1024 1024 (13/20) (by norm_num) (by norm_num)
     (by norm_num) (by norm_num)⟩

/-- C3: after either transform, every pixel of the saved output lying
outside the pasted rectangle (size `new_w×new_h` at the centered offset) is
fully transparent.  `add_padding` is applied with `padding_ratio = p`, so
its rectangle uses the effective ratio `1 - p`; `shrink_content` uses `r`
directly.  A save happens exactly when both scaled dimensions are nonzero
(otherwise the resize guard raises and nothing is written), so the claim
about the saved output is stated under that condition. -/
theorem c3_outside_transparent (lib : PILLib) (fs : FS) (path : String)
    (p r : ℚ) (img : Image) (px py : Nat)
    (hfs : fs path = some (Except.ok img))
    (hwA : scaledDim img.width (1 - p) ≠ 0)
    (hhA : scaledDim img.height (1 - p) ≠ 0)
    (hwS : scaledDim img.width r ≠ 0)
    (hhS : scaledDim img.height r ≠ 0)
    (houtA : outsideRect (centerOffset img.width (scaledDim img.width (1 - p)))
      (centerOffset img.height (scaledDim img.height (1 - p)))
      (scaledDim img.width (1 - p)) (scaledDim img.height (1 - p)) px py)
    (houtS : outsideRect (centerOffset img.width (scaledDim img.width r))
      (centerOffset img.height (scaledDim img.height r))
      (scaledDim img.width r) (scaledDim img.height r) px py) :
    (fileImage ((add_padding lib fs path p).1 path)).pixel px py = RGBA.clear
    ∧ (fileImage ((shrink_content lib fs path r).1 path)).pixel px py
        = RGBA.clear := by
  have h2A : Image.resize lib img (scaledDim img.width (1 - p))
      (scaledDim img.height (1 - p))
      = Except.ok (Image.resizedData lib img (scaledDim img.width (1 - p))
          (scaledDim img.height (1 - p))) := by
    unfold Image.resize
    rw [if_neg (by simp [hwA, hhA])]
  have h2S : Image.resize lib img (scaledDim img.width r)
      (scaledDim img.height r)
      = Except.ok (Image.resizedData lib img (scaledDim img.width r)
          (scaledDim img.height r)) := by
    unfold Image.resize
    rw [if_neg (by simp [hwS, hhS])]
  unfold outsideRect at houtA houtS
  constructor <;>
    simp_all [add_padding, shrink_content, hfs, fileImage, Image.pasteMasked,
      Image.resizedData, Image.newCanvas]

/-- Witness for C3: pixel (0,0) of a 4×4 image under ratio 1/2 lies outside
the 2×2 rectangle at offset (1,1). -/
theorem c3_witness :
    fsWith "icon" (imgOpaque 4 4) "icon" = some (Except.ok (imgOpaque 4 4))
    ∧ scaledDim 4 (1 - mkRat 1 2) ≠ 0 ∧ scaledDim 4 (1 - mkRat 1 2) ≠ 0
    ∧ scaledDim 4 (mkRat 1 2) ≠ 0 ∧ scaledDim 4 (mkRat 1 2) ≠ 0
    ∧ outsideRect (centerOffset 4 (scaledDim 4 (1 - mkRat 1 2)))
        (centerOffset 4 (scaledDim 4 (1 - mkRat 1 2)))
        (scaledDim 4 (1 - mkRat 1 2)) (scaledDim 4 (1 - mkRat 1 2)) 0 0
    ∧ outsideRect (centerOffset 4 (scaledDim 4 (mkRat 1 2)))
        (centerOffset 4 (scaledDim 4 (mkRat 1 2)))
        (scaledDim 4 (mkRat 1 2)) (scaledDim 4 (mkRat 1 2)) 0 0
    ∧ ((fileImage ((add_padding nearestLib (fsWith "icon" (imgOpaque 4 4)) "icon" (mkRat 1 2)).1 "icon")).pixel 0 0 = RGBA.clear
      ∧ (fileImage ((shrink_content nearestLib (fsWith "icon" (imgOpaque 4 4)) "icon" (mkRat 1 2)).1 "icon")).pixel 0 0 = RGBA.clear) :=
  ⟨rfl, by decide, by decide, by decide, by decide, by decide, by decide,
   c3_outside_transparent nearestLib (fsWith "icon" (imgOpaque 4 4)) "icon"
     (mkRat 1 2) (mkRat 1 2) (imgOpaque 4 4) 0 0 rfl (by decide) (by decide)
     (by decide) (by decide) (by decide) (by decide)⟩

/-- C5: on every input, each transform returns normally with a final
disposition that is one of: file-not-found report, caught-and-reported
error with the filesystem untouched, or success; an exception raised by the
fallible decode step is always caught, reported as an error message, and
suppressed. -/
theorem c5_exceptions_suppressed (lib : PILLib) (fs : FS) (path : String)
    (r : ℚ) :
    (add_padding lib fs path r = (fs, [Msg.fileNotFound path])
      ∨ (∃ e, add_padding lib fs path r
          = (fs, [Msg.processing path, Msg.error e]))
      ∨ (∃ k, (add_padding lib fs path r).2
          = [Msg.processing path, Msg.success k]))
    ∧ (shrink_content lib fs path r = (fs, [Msg.fileNotFound path])
      ∨ (∃ e, shrink_content lib fs path r
          = (fs, [Msg.processingWithScale path r, Msg.error e]))
      ∨ (∃ k, (shrink_content lib fs path r).2
          = [Msg.processingWithScale path r, Msg.success k])) := by
  rcases h : fs path with _ | f
  · exact ⟨Or.inl (by simp [add_padding, h]), Or.inl (by simp [shrink_content, h])⟩
  · rcases f with e | img
    · exact ⟨Or.inr (Or.inl ⟨e, by simp [add_padding, h]⟩),
        Or.inr (Or.inl ⟨e, by simp [shrink_content, h]⟩)⟩
    · refine ⟨?_, ?_⟩
      · rcases h2 : Image.resize lib img (scaledDim img.width (1 - r))
            (scaledDim img.height (1 - r)) with e2 | imgr
        · exact Or.inr (Or.inl ⟨e2, by simp [add_padding, h, h2]⟩)
        · exact Or.inr (Or.inr ⟨pyInt ((1 - r) * 100),
            by simp [add_padding, h, h2]⟩)
      · rcases h2 : Image.resize lib img (scaledDim img.width r)
            (scaledDim img.height r) with e2 | imgr
        · exact Or.inr (Or.inl ⟨e2, by simp [shrink_content, h, h2]⟩)
        · exact Or.inr (Or.inr ⟨pyInt (r * 100),
            by simp [shrink_content, h, h2]⟩)

/-- C6: when the path is absent, only a file-not-found message is emitted
and the filesystem is returned unchanged; when the file exists but decoding
raises, the error is reported and the filesystem is returned unchanged; in
both cases the function returns normally. -/
theorem c6_failure_leaves_fs_unchanged (lib : PILLib) (fs : FS)
    (path : String) (r : ℚ) :
    (fs path = none →
      add_padding lib fs path r = (fs, [Msg.fileNotFound path])
      ∧ shrink_content lib fs path r = (fs, [Msg.fileNotFound path]))
    ∧ (∀ e, fs path = some (Except.error e) →
      add_padding lib fs path r = (fs, [Msg.processing path, Msg.error e])
      ∧ shrink_content lib fs path r
          = (fs, [Msg.processingWithScale path r, Msg.error e])) := by
  constructor
  · intro h
    constructor <;> simp [add_padding, shrink_content, h]
  · intro e h
    constructor <;> simp [add_padding, shrink_content, h]

/-- Witness for C6: a missing path and a corrupt file, both at ratio 7/20. -/
theorem c6_witness :
    (add_padding nearestLib fsEmpty "icon" (7/20)
        = (fsEmpty, [Msg.fileNotFound "icon"])
      ∧ shrink_content nearestLib fsEmpty "icon" (7/20)
        = (fsEmpty, [Msg.fileNotFound "icon"]))
    ∧ (add_padding nearestLib (fsCorrupt "icon" "bad header") "icon" (7/20)
        = (fsCorrupt "icon" "bad header",
           [Msg.processing "icon", Msg.error "bad header"])
      ∧ shrink_content nearestLib (fsCorrupt "icon" "bad header") "icon" (7/20)
        = (fsCorrupt "icon" "bad header",
           [Msg.processingWithScale "icon" (7/20), Msg.error "bad header"])) :=
  ⟨(c6_failure_leaves_fs_unchanged nearestLib fsEmpty "icon" (7/20)).1 rfl,
   (c6_failure_leaves_fs_unchanged nearestLib (fsCorrupt "icon" "bad header")
     "icon" (7/20)).2 "bad header" rfl⟩

lemma pasteMasked_pixel_of_outside {lib : PILLib} {dst src : Image}
    {x y : Int} {px py : Nat}
    (h : outsideRect x y src.width src.height px py) :
    (Image.pasteMasked lib dst src x y).pixel px py = dst.pixel px py := by
  unfold outsideRect at h
  unfold Image.pasteMasked
  exact if_neg h

lemma outsideRect_of_width_zero {x y : Int} {h px py : Nat} :
    outsideRect x y 0 h px py := by
  unfold outsideRect
  rintro ⟨h1, h2, _, _⟩
  simp at h2
  omega

lemma outsideRect_of_height_zero {x y : Int} {w px py : Nat} :
    outsideRect x y w 0 px py := by
  unfold outsideRect
  rintro ⟨_, _, h3, h4⟩
  simp at h4
  omega

/-- C7 counterexample: at a concrete image and `r = 1/2`, `add_padding` with
`padding_ratio = 1 - r` and `shrink_content` with `scale_factor = r` do not
produce identical behaviour: their printed progress lines differ. -/
theorem c7_counterexample :
    ¬ (add_padding nearestLib (fsWith "icon" (imgOpaque 4 4)) "icon"
          (1 - mkRat 1 2)
        = shrink_content nearestLib (fsWith "icon" (imgOpaque 4 4)) "icon"
          (mkRat 1 2)) := by
  intro h
  exact absurd (congrArg Prod.snd h) (by decide)

/-- C7 (amended): for every path and `r`, `add_padding` with
`padding_ratio = 1 - r` and `shrink_content` with `scale_factor = r` produce
the identical filesystem result and identical messages after the first line;
the first (progress) lines either agree or differ only in that
`shrink_content`'s names the scale factor. -/
theorem c7_unified_transform (lib : PILLib) (fs : FS) (path : String)
    (r : ℚ) :
    (add_padding lib fs path (1 - r)).1 = (shrink_content lib fs path r).1
    ∧ (add_padding lib fs path (1 - r)).2.tail
        = (shrink_content lib fs path r).2.tail
    ∧ (add_padding lib fs path (1 - r)).2.length
        = (shrink_content lib fs path r).2.length
    ∧ ((add_padding lib fs path (1 - r)).2.head?
          = (shrink_content lib fs path r).2.head?
      ∨ ((add_padding lib fs path (1 - r)).2.head?
            = some (Msg.processing path)
        ∧ (shrink_content lib fs path r).2.head?
            = some (Msg.processingWithScale path r))) := by
  have hr : 1 - (1 - r) = r := by ring
  rcases h : fs path with _ | f
  · simp [add_padding, shrink_content, h]
  · rcases f with e | img
    · simp [add_padding, shrink_content, h]
    · simp only [add_padding, shrink_content, h, hr]
      rcases h2 : Image.resize lib img (scaledDim img.width r)
          (scaledDim img.height r) with e2 | imgr <;>
        simp [h2]

/-- C8: the transform is not idempotent: there are an image, a ratio
`r ∈ (0,1)` and library primitives such that applying either transform twice
with the same ratio saves a different image than applying it once. -/
theorem c8_not_idempotent :
    ∃ (lib : PILLib) (fs : FS) (path : String) (r : ℚ),
      0 < r ∧ r < 1
      ∧ (shrink_content lib (shrink_content lib fs path r).1 path r).1 path
          ≠ (shrink_content lib fs path r).1 path
      ∧ (add_padding lib (add_padding lib fs path (1 - r)).1 path (1 - r)).1 path
          ≠ (add_padding lib fs path (1 - r)).1 path := by
  refine ⟨nearestLib, fsWith "icon" (imgOpaque 4 4), "icon", mkRat 1 2,
    by decide, by decide, ?_, ?_⟩ <;>
  · intro h
    exact absurd (congrArg (fun o => (fileImage o).pixel 1 1) h) (by decide)

/-- C9: for a 1024×1024 opaque input and `padding_ratio = 0.35` (effective
scale 0.65) as used by `fix_icon.py`, the saved output is 1024×1024, the
content is resized to 665×665, pasted at offset (179,179), and every pixel
outside that rectangle is transparent; the script reports 65% success. -/
theorem c9_scenario_1024 (lib : PILLib) (px py : Nat)
    (hout : outsideRect 179 179 665 665 px py) :
    scaledDim 1024 (1 - mkRat 35 100) = 665
    ∧ centerOffset 1024 (scaledDim 1024 (1 - mkRat 35 100)) = 179
    ∧ (add_padding lib (fsWith "icon" (imgOpaque 1024 1024)) "icon" (mkRat 35 100)).1 "icon"
        = some (Except.ok (fileImage ((add_padding lib (fsWith "icon" (imgOpaque 1024 1024)) "icon" (mkRat 35 100)).1 "icon")))
    ∧ (fileImage ((add_padding lib (fsWith "icon" (imgOpaque 1024 1024)) "icon" (mkRat 35 100)).1 "icon")).width = 1024
    ∧ (fileImage ((add_padding lib (fsWith "icon" (imgOpaque 1024 1024)) "icon" (mkRat 35 100)).1 "icon")).height = 1024
    ∧ (fileImage ((add_padding lib (fsWith "icon" (imgOpaque 1024 1024)) "icon" (mkRat 35 100)).1 "icon")).pixel px py = RGBA.clear
    ∧ (add_padding lib (fsWith "icon" (imgOpaque 1024 1024)) "icon" (mkRat 35 100)).2
        = [Msg.processing "icon", Msg.success 65] := by
  have h1 : scaledDim 1024 (1 - mkRat 35 100) = 665 := by decide
  have h2 : centerOffset 1024 665 = 179 := by decide
  have h3 : pyInt ((1 - mkRat 35 100) * 100) = 65 := by decide
  have hout2 : outsideRect (centerOffset 1024 (scaledDim 1024 (1 - mkRat 35 100)))
      (centerOffset 1024 (scaledDim 1024 (1 - mkRat 35 100)))
      (scaledDim 1024 (1 - mkRat 35 100)) (scaledDim 1024 (1 - mkRat 35 100))
      px py := by
    rw [h1, h2]
    exact hout
  refine ⟨h1, by rw [h1, h2], rfl, rfl, rfl, ?_, ?_⟩
  · exact @pasteMasked_pixel_of_outside lib (Image.newCanvas 1024 1024)
      (Image.resizedData lib (imgOpaque 1024 1024)
        (scaledDim 1024 (1 - mkRat 35 100)) (scaledDim 1024 (1 - mkRat 35 100)))
      (centerOffset 1024 (scaledDim 1024 (1 - mkRat 35 100)))
      (centerOffset 1024 (scaledDim 1024 (1 - mkRat 35 100))) px py hout2
  · show [Msg.processing "icon", Msg.success (pyInt ((1 - mkRat 35 100) * 100))]
        = [Msg.processing "icon", Msg.success 65]
    rw [h3]

/-- Witness for C9 at pixel (0,0), which lies outside the pasted square. -/
theorem c9_witness :
    outsideRect 179 179 665 665 0 0
    ∧ (scaledDim 1024 (1 - mkRat 35 100) = 665
      ∧ centerOffset 1024 (scaledDim 1024 (1 - mkRat 35 100)) = 179
      ∧ (add_padding nearestLib (fsWith "icon" (imgOpaque 1024 1024)) "icon" (mkRat 35 100)).1 "icon"
          = some (Except.ok (fileImage ((add_padding nearestLib (fsWith "icon" (imgOpaque 1024 1024)) "icon" (mkRat 35 100)).1 "icon")))
      ∧ (fileImage ((add_padding nearestLib (fsWith "icon" (imgOpaque 1024 1024)) "icon" (mkRat 35 100)).1 "icon")).width = 1024
      ∧ (fileImage ((add_padding nearestLib (fsWith "icon" (imgOpaque 1024 1024)) "icon" (mkRat 35 100)).1 "icon")).height = 1024
      ∧ (fileImage ((add_padding nearestLib (fsWith "icon" (imgOpaque 1024 1024)) "icon" (mkRat 35 100)).1 "icon")).pixel 0 0 = RGBA.clear
      ∧ (add_padding nearestLib (fsWith "icon" (imgOpaque 1024 1024)) "icon" (mkRat 35 100)).2
          = [Msg.processing "icon", Msg.success 65]) :=
  ⟨by decide, c9_scenario_1024 nearestLib 0 0 (by decide)⟩

/-- C10 counterexample: at a 1×1 image and `r = 1/2` the scaled width is 0,
and the transform does not complete with a transparent canvas and a success
message: the resize guard raises, the error is caught and reported, and the
file keeps its original non-transparent content. -/
theorem c10_counterexample :
    scaledDim (imgOpaque 1 1).width (mkRat 1 2) = 0
    ∧ (0 : ℚ) < mkRat 1 2 ∧ (mkRat 1 2 : ℚ) ≤ 1
    ∧ (shrink_content nearestLib (fsWith "icon" (imgOpaque 1 1)) "icon" (mkRat 1 2)).1 "icon"
        = some (Except.ok (imgOpaque 1 1))
    ∧ (fileImage ((shrink_content nearestLib (fsWith "icon" (imgOpaque 1 1)) "icon" (mkRat 1 2)).1 "icon")).pixel 0 0
        ≠ RGBA.clear
    ∧ (shrink_content nearestLib (fsWith "icon" (imgOpaque 1 1)) "icon" (mkRat 1 2)).2
        = [Msg.processingWithScale "icon" (mkRat 1 2),
           Msg.error "height and width must be > 0"] :=
  ⟨by decide, by decide, by decide, rfl, by decide, by decide⟩

/-- C10 (amended): for every existing decodable image and ratio `r ∈ (0,1]`
with `⌊W·r⌋ = 0` or `⌊H·r⌋ = 0`, the resize step raises
`ValueError("height and width must be > 0")`; both transforms catch it,
report it after the progress line, and return with the filesystem unchanged:
no file is overwritten and no success message is printed.  `add_padding` is
applied with `padding_ratio = 1 - r`, whose effective ratio is `r`. -/
theorem c10_degenerate_ratio_raises (lib : PILLib) (fs : FS) (path : String)
    (r : ℚ) (img : Image) (hfs : fs path = some (Except.ok img))
    (hr0 : 0 < r) (hr1 : r ≤ 1)
    (hdeg : scaledDim img.width r = 0 ∨ scaledDim img.height r = 0) :
    shrink_content lib fs path r
      = (fs, [Msg.processingWithScale path r,
              Msg.error "height and width must be > 0"])
    ∧ add_padding lib fs path (1 - r)
      = (fs, [Msg.processing path,
              Msg.error "height and width must be > 0"]) := by
  have hr : 1 - (1 - r) = r := by ring
  have h2 : Image.resize lib img (scaledDim img.width r)
      (scaledDim img.height r)
      = Except.error "height and width must be > 0" := by
    unfold Image.resize
    rw [if_pos hdeg]
  constructor
  · simp [shrink_content, hfs, h2]
  · simp only [add_padding, hfs, hr]
    simp [h2]

/-- Witness for the amended C10 at a 1×1 image and `r = 1/2`. -/
theorem c10_witness :
    fsWith "icon" (imgOpaque 1 1) "icon" = some (Except.ok (imgOpaque 1 1))
    ∧ (0 : ℚ) < mkRat 1 2 ∧ (mkRat 1 2 : ℚ) ≤ 1
    ∧ (scaledDim (imgOpaque 1 1).width (mkRat 1 2) = 0
        ∨ scaledDim (imgOpaque 1 1).height (mkRat 1 2) = 0)
    ∧ (shrink_content nearestLib (fsWith "icon" (imgOpaque 1 1)) "icon" (mkRat 1 2)
        = (fsWith "icon" (imgOpaque 1 1),
           [Msg.processingWithScale "icon" (mkRat 1 2),
            Msg.error "height and width must be > 0"])
      ∧ add_padding nearestLib (fsWith "icon" (imgOpaque 1 1)) "icon" (1 - mkRat 1 2)
        = (fsWith "icon" (imgOpaque 1 1),
           [Msg.processing "icon",
            Msg.error "height and width must be > 0"])) :=
  ⟨rfl, by decide, by decide, Or.inl (by decide),
   c10_degenerate_ratio_raises nearestLib (fsWith "icon" (imgOpaque 1 1))
     "icon" (mkRat 1 2) (imgOpaque 1 1) rfl (by decide) (by decide)
     (Or.inl (by decide))⟩
